import Mathlib

/-!
# Verification of `micro-http-router` (src/router.js)

A shallow embedding of the router's registration (`route`) and dispatch
(`handle`) logic, together with a segment-level model of the `radix-router`
dependency (which is not part of this repository's sources and is therefore
modelled from the specification, §4.1 PathTree).

Conventions of the embedding:
* JavaScript callables (handlers and pre-hooks) are opaque values carrying a
  numeric identity plus an invocation behaviour: return a value, throw
  synchronously, or return a promise that rejects asynchronously.
* Mutation of the routing table is modelled by explicit state passing on a
  purely functional tree.
* `assert(...)` failures at registration time are modelled as error codes
  returned next to the (possibly already mutated) state, since `route()`
  mutates the table before its pre-hook assertion runs.
* `handle`'s observable outcome distinguishes a normally returned handler
  value, a 500 response written via `send(res, 500, data)`, and an error
  thrown out of `handle` via `throw createError(404, ...)`.
-/

namespace MicroHttpRouter

/-- A JavaScript `Error`-like value: `name`, `message` and `stack`. -/
structure JsError where
  name : String
  message : String
  stack : String
deriving DecidableEq, Repr

/-- Observable behaviour of invoking an opaque JS callable: it either
returns (or resolves to) a value, throws synchronously, or returns a
promise that later rejects. An `await`ed call collapses `rejectAsync`
into a caught failure; an un-`await`ed call does not. -/
inductive JsOutcome (α : Type) where
  | ret : α → JsOutcome α
  | throwSync : JsError → JsOutcome α
  | rejectAsync : JsError → JsOutcome α
deriving DecidableEq, Repr

/-- An opaque route handler: identity plus invocation behaviour (the value
a successful call resolves to is a `Nat` token). -/
structure Handler where
  id : Nat
  behavior : JsOutcome Nat
deriving DecidableEq, Repr

/-- An opaque pre-hook (`before`) callable. -/
structure Hook where
  id : Nat
  behavior : JsOutcome Unit
deriving DecidableEq, Repr

/-- The value bound per HTTP method on a route: the handler and the
optional pre-hook (router.js lines 56-59). -/
structure MethodBinding where
  handler : Handler
  before : Option Hook
deriving DecidableEq, Repr

/-- The route record stored in the tree: `{ path, methods }`
(router.js lines 48-51). The `methods` `Map` is modelled as an
association list with overwrite-on-set semantics. -/
structure RouteData where
  path : String
  methods : List (String × MethodBinding)
deriving DecidableEq, Repr

/-- Split a character list at every occurrence of a separator character.
Structural recursion so that concrete instances evaluate inside the
kernel; agrees with `String.splitOn` for one-character separators. -/
def splitCharsAux (sep : Char) : List Char → List Char → List String
  | [], acc => [String.mk acc.reverse]
  | c :: cs, acc =>
    if c = sep then String.mk acc.reverse :: splitCharsAux sep cs []
    else splitCharsAux sep cs (c :: acc)

/-- Split a string at every occurrence of a separator character. -/
def splitChar (sep : Char) (s : String) : List String := splitCharsAux sep s.data []

/-- `String.prototype.toUpperCase` (for the method names used here). -/
def upperString (s : String) : String := String.mk (s.data.map Char.toUpper)

/-- Does the segment begin with the parameter marker `:`? -/
def isParamSeg (s : String) : Bool :=
  match s.data with
  | [] => false
  | c :: _ => c = ':'

/-- The parameter name of a `:name` segment: the segment without its
leading marker. -/
def paramName (s : String) : String := String.mk s.data.tail

/-- Join segments back together with `/` separators. -/
def joinSegs : List String → String
  | [] => ""
  | [s] => s
  | s :: rest => s ++ "/" ++ joinSegs rest

/-- `Map.get` on the methods map. -/
def findMethod : List (String × MethodBinding) → String → Option MethodBinding
  | [], _ => none
  | (k, v) :: rest, m => if k = m then some v else findMethod rest m

/-- `Map.set` on the methods map: overwrite an existing key, else append. -/
def setMethod : List (String × MethodBinding) → String → MethodBinding → List (String × MethodBinding)
  | [], m, b => [(m, b)]
  | (k, v) :: rest, m, b => if k = m then (m, b) :: rest else (k, v) :: setMethod rest m b

/-- Modelled from the spec: the `radix-router` dependency is not under this
repository's sources; its tree node is modelled from §3/§4.1: static
children keyed by literal segment, at most one parameter child (holding the
parameter's name), at most one wildcard child, and an optional route
record terminating at this node. -/
inductive TreeNode : Type where
  | node (staticChildren : List (String × TreeNode))
         (paramChild : Option (String × TreeNode))
         (wildcardChild : Option TreeNode)
         (route : Option RouteData) : TreeNode

/-- A node with no children and no route. -/
def emptyNode : TreeNode := .node [] none none none

/-- The route record stored at a node. -/
def nodeRoute : TreeNode → Option RouteData
  | .node _ _ _ r => r

/-- Replace the route record stored at a node. -/
def withRoute : TreeNode → RouteData → TreeNode
  | .node sc pc wc _, d => .node sc pc wc (some d)

/-- Find the static child keyed by a literal segment. -/
def findStatic : List (String × TreeNode) → String → Option TreeNode
  | [], _ => none
  | (k, v) :: rest, s => if k = s then some v else findStatic rest s

/-- Set (overwrite or append) the static child keyed by a literal segment. -/
def setStatic : List (String × TreeNode) → String → TreeNode → List (String × TreeNode)
  | [], s, c => [(s, c)]
  | (k, v) :: rest, s, c => if k = s then (s, c) :: rest else (k, v) :: setStatic rest s c

/-- Modelled from the spec (§4.1 insert): split the pattern into segments; a
segment beginning with `:` creates/reuses the parameter child and records
the parameter name (the node keeps the latest name, §3); a `*` segment
creates/reuses the wildcard child — wildcards are terminal (§3), so any
further pattern segments are not descended into; any other literal
creates/reuses a static child keyed by exact string. The route record is
stored at the terminal node. -/
def insertTree : TreeNode → List String → RouteData → TreeNode
  | t, [], d => withRoute t d
  | .node sc pc wc r, seg :: rest, d =>
    if isParamSeg seg then
      let child := (pc.map Prod.snd).getD emptyNode
      .node sc (some (paramName seg, insertTree child rest d)) wc r
    else if seg = "*" then
      let child := wc.getD emptyNode
      .node sc pc (some (withRoute child d)) r
    else
      let child := (findStatic sc seg).getD emptyNode
      .node (setStatic sc seg (insertTree child rest d)) pc wc r

/-- Modelled from the spec (§4.1 lookup): greedy descent with priority
static > parameter > wildcard at each level, no backtracking. A parameter
segment matches any single segment and binds its value (bindings in
left-to-right pattern order); a wildcard consumes all remaining segments
(policy choice per §9: a wildcard does not match a zero-length remainder).
Returns the route record and the parameter bindings. -/
def lookupTree : TreeNode → List String → Option (RouteData × List (String × String))
  | .node _ _ _ r, [] => r.map (fun d => (d, []))
  | .node sc pc wc _, seg :: rest =>
    match findStatic sc seg with
    | some c => lookupTree c rest
    | none =>
      match pc with
      | some (name, c) =>
        (lookupTree c rest).map (fun p => (p.1, (name, seg) :: p.2))
      | none =>
        match wc with
        | some w =>
          (nodeRoute w).map (fun d => (d, [("*", joinSegs (seg :: rest))]))
        | none => none

/-- The route record a lookup resolves to, ignoring parameter bindings. -/
def lookupRoute (t : TreeNode) (segs : List String) : Option RouteData :=
  (lookupTree t segs).map Prod.fst

/-- Replace the route record at the node that `lookupTree` reaches for
these segments, following the identical greedy descent. Models the
in-place mutation `route.methods.set(...)` of a route object previously
obtained from `radixRouter.lookup` (router.js lines 46, 61). -/
def setRouteAt : TreeNode → List String → RouteData → TreeNode
  | t, [], d => withRoute t d
  | .node sc pc wc r, seg :: rest, d =>
    match findStatic sc seg with
    | some c => .node (setStatic sc seg (setRouteAt c rest d)) pc wc r
    | none =>
      match pc with
      | some (name, c) => .node sc (some (name, setRouteAt c rest d)) wc r
      | none =>
        match wc with
        | some w => .node sc pc (some (withRoute w d)) r
        | none => .node sc pc wc r

/-- Split a path into `/`-delimited segments, ignoring empty segments
(spec §4.1; this models the default non-strict mode, in which a trailing
slash is equivalent to its absence). -/
def splitPath (s : String) : List String :=
  (splitChar (Char.ofNat 47) s).filter (fun seg => seg ≠ "")

/-- Router state: the radix tree plus the `debug` option captured by the
constructor (router.js lines 29-34). The `strict` option is not modelled:
`splitPath` fixes the default non-strict segment handling, and no claim
concerns strict mode. -/
structure RouterState where
  tree : TreeNode
  debug : Bool

/-- A freshly constructed router. -/
def mkRouter (debug : Bool) : RouterState := { tree := emptyNode, debug := debug }

/-- Registration-time failures: the `assert` calls in `route()`.
`invalidRoute` covers the missing path / method / handler asserts
(router.js lines 41-44); `invalidHook` is the
`assert(typeof options.before === 'function')` failure (line 64). -/
inductive RegError where
  | invalidRoute : String → RegError
  | invalidHook : RegError
deriving DecidableEq, Repr

/-- The `options.before` field: absent (or falsy), a callable, or a truthy
non-callable value. -/
inductive BeforeValue where
  | callable : Hook → BeforeValue
  | notCallable : BeforeValue
deriving DecidableEq, Repr

/-- The options object passed to `route()`. A missing or empty-string
`path`/`method` is falsy in JS, so emptiness models both; a missing
`handler` is `none`. -/
structure RouteOptions where
  path : String
  method : String
  handler : Option Handler
  before : Option BeforeValue

/-- `Router.prototype.route` (router.js lines 40-70). Returns the updated
state together with the error raised, if any. The error is returned next
to the state because the source mutates the routing table *before* the
pre-hook assertion: `route.methods.set(...)` (line 61) precedes
`assert(typeof options.before === 'function')` (line 64), and a new route
object is inserted into the tree (line 53) before either. -/
def route (st : RouterState) (o : RouteOptions) : RouterState × Option RegError :=
  if o.path = "" then (st, some (.invalidRoute "You must provide a valid path."))
  else if o.method = "" then
    (st, some (.invalidRoute "You must provide a valid route handler function."))
  else
    match o.handler with
    | none => (st, some (.invalidRoute "You must provide a valid route handler function."))
    | some h =>
      let segs := splitPath o.path
      let m := upperString o.method
      match lookupRoute st.tree segs with
      | some r =>
        let put := fun (b : MethodBinding) =>
          { st with tree := setRouteAt st.tree segs ⟨r.path, setMethod r.methods m b⟩ }
        match o.before with
        | none => (put ⟨h, none⟩, none)
        | some (.callable hk) => (put ⟨h, some hk⟩, none)
        | some .notCallable => (put ⟨h, none⟩, some .invalidHook)
      | none =>
        let put := fun (b : MethodBinding) =>
          { st with tree := insertTree st.tree segs ⟨o.path, setMethod [] m b⟩ }
        match o.before with
        | none => (put ⟨h, none⟩, none)
        | some (.callable hk) => (put ⟨h, some hk⟩, none)
        | some .notCallable => (put ⟨h, none⟩, some .invalidHook)

/-- The inbound request: `req.method` (possibly `undefined`) and `req.url`. -/
structure Request where
  method : Option String
  url : String

/-- The pathname of `new URL(req.url, 'http://localhost/')`: the part of
the URL before the query string (simplified model of the WHATWG URL
parser, an external platform API). -/
def urlPath (url : String) : String := (splitChar (Char.ofNat 63) url).headD url

/-- The search parameters of `new URL(req.url, 'http://localhost/')` as
key/value pairs (simplified model of `URLSearchParams`: split on `&` then
`=`; percent-decoding is not modelled). -/
def urlQuery (url : String) : List (String × String) :=
  match splitChar (Char.ofNat 63) url with
  | _ :: q :: _ =>
    ((splitChar (Char.ofNat 38) q).filter (fun kv => kv ≠ "")).map (fun kv =>
      match splitChar (Char.ofNat 61) kv with
      | k :: v :: _ => (k, v)
      | _ => (kv, ""))
  | _ => []

/-- The observable outcome of one `handle` call:
* `handled v` — the handler's value was returned (`return await methodObj.handler(req, res)`);
* `fault500 data` — `send(res, 500, data)` ran in the catch block, `data`
  being `none` for the JS `null` body and `some s` for a debug string;
* `threw404 msg` — `throw createError(404, msg)` propagated the error out
  of `handle` to its caller. -/
inductive HandleOutcome where
  | handled : Nat → HandleOutcome
  | fault500 : Option String → HandleOutcome
  | threw404 : String → HandleOutcome
deriving DecidableEq, Repr

/-- `true` exactly when the outcome is an error thrown out of `handle`
rather than a response produced within it. -/
def HandleOutcome.isThrown : HandleOutcome → Bool
  | .threw404 _ => true
  | _ => false

/-- Everything observable about one dispatch: the outcome, the request
fields `handle` assigned, which callables were invoked, and any promise
rejection that escaped unawaited. -/
structure DispatchResult where
  outcome : HandleOutcome
  params : Option (List (String × String))
  searchParams : Option (List (String × String))
  ranBefore : Option Nat
  ranHandler : Option Nat
  unhandledRejections : List JsError
deriving DecidableEq, Repr

/-- The TypeError V8 raises for `methodObj.before` when
`route.methods.get(req.method)` returned `undefined` (router.js line 161
with an unregistered method). -/
def undefinedBeforeError : JsError :=
  { name := "TypeError"
    message := "Cannot read properties of undefined (reading 'before')"
    stack := "TypeError: Cannot read properties of undefined (reading 'before')" }

/-- The body passed to `send(res, 500, data)`: the debug string
  `e.name + ": " + e.message + "\n" + e.stack` when `debug` is set,
otherwise the JS `null` (router.js lines 166-168). -/
def faultBody (debug : Bool) (e : JsError) : Option String :=
  if debug then some (e.name ++ ": " ++ e.message ++ "\n" ++ e.stack) else none

/-- Invoke the handler after the pre-hook phase: the handler call is
`await`ed inside the `try`, so both a synchronous throw and an
asynchronous rejection land in the catch block (router.js lines 164-171). -/
def runHandler (debug : Bool) (mb : MethodBinding) (ps : Option (List (String × String)))
    (sp : List (String × String)) (ranB : Option Nat) (rejs : List JsError) : DispatchResult :=
  match mb.handler.behavior with
  | .ret v =>
    { outcome := .handled v, params := ps, searchParams := some sp
      ranBefore := ranB, ranHandler := some mb.handler.id, unhandledRejections := rejs }
  | .throwSync e =>
    { outcome := .fault500 (faultBody debug e), params := ps, searchParams := some sp
      ranBefore := ranB, ranHandler := some mb.handler.id, unhandledRejections := rejs }
  | .rejectAsync e =>
    { outcome := .fault500 (faultBody debug e), params := ps, searchParams := some sp
      ranBefore := ranB, ranHandler := some mb.handler.id, unhandledRejections := rejs }

/-- Dispatch once a route and a defined method are at hand: the body of the
`try` block (router.js lines 152-171). `methods.get` may return
`undefined`, in which case `methodObj.before` raises a TypeError caught by
the same catch block; `req.params` and `req.searchParams` were already
assigned at that point. The pre-hook call is *not* awaited: only its
synchronous throw is caught; a returned promise is discarded, so an
asynchronous rejection leaves the handler to run and escapes unhandled. -/
def dispatchFound (debug : Bool) (r : RouteData) (bindings : List (String × String))
    (m : String) (sp : List (String × String)) : DispatchResult :=
  let ps : Option (List (String × String)) :=
    if bindings.isEmpty then none else some bindings
  match findMethod r.methods m with
  | none =>
    { outcome := .fault500 (faultBody debug undefinedBeforeError)
      params := ps, searchParams := some sp
      ranBefore := none, ranHandler := none, unhandledRejections := [] }
  | some mb =>
    match mb.before with
    | none => runHandler debug mb ps sp none []
    | some hk =>
      match hk.behavior with
      | .ret _ => runHandler debug mb ps sp (some hk.id) []
      | .throwSync e =>
        { outcome := .fault500 (faultBody debug e), params := ps, searchParams := some sp
          ranBefore := some hk.id, ranHandler := none, unhandledRejections := [] }
      | .rejectAsync e => runHandler debug mb ps sp (some hk.id) [e]

/-- `Router.prototype.handle` (router.js lines 147-175): parse the URL,
look up the pathname; when a route was found *and* `req.method` is
defined, dispatch inside the `try`; otherwise
`throw createError(404, 'Route not found')`. -/
def handle (st : RouterState) (req : Request) : DispatchResult :=
  match lookupTree st.tree (splitPath (urlPath req.url)) with
  | some rb =>
    match req.method with
    | some m => dispatchFound st.debug rb.1 rb.2 m (urlQuery req.url)
    | none =>
      { outcome := .threw404 "Route not found", params := none, searchParams := none
        ranBefore := none, ranHandler := none, unhandledRejections := [] }
  | none =>
    { outcome := .threw404 "Route not found", params := none, searchParams := none
      ranBefore := none, ranHandler := none, unhandledRejections := [] }

/-! ## Helper lemmas -/

theorem findStatic_setStatic (l : List (String × TreeNode)) (s : String) (c : TreeNode) :
    findStatic (setStatic l s c) s = some c := by
  induction l with
  | nil => simp [setStatic, findStatic]
  | cons kv rest ih =>
    obtain ⟨k, v⟩ := kv
    by_cases h : k = s <;> simp [setStatic, findStatic, h, ih]

theorem findMethod_setMethod_self (l : List (String × MethodBinding)) (m : String)
    (b : MethodBinding) : findMethod (setMethod l m b) m = some b := by
  induction l with
  | nil => simp [setMethod, findMethod]
  | cons kv rest ih =>
    obtain ⟨k, v⟩ := kv
    by_cases h : k = m <;> simp [setMethod, findMethod, h, ih]

theorem findMethod_setMethod_ne (l : List (String × MethodBinding)) (m m' : String)
    (b : MethodBinding) (h : m' ≠ m) :
    findMethod (setMethod l m b) m' = findMethod l m' := by
  induction l with
  | nil => simp [setMethod, findMethod, Ne.symm h]
  | cons kv rest ih =>
    obtain ⟨k, v⟩ := kv
    by_cases hk : k = m
    · subst hk
      simp [setMethod, findMethod, Ne.symm h]
    · by_cases hk' : k = m' <;> simp [setMethod, findMethod, hk, hk', ih, h]

/-- The pattern's insertion path is not shadowed in the tree: along these
segments no static child is keyed by the literal text of a parameter
segment, and no static or parameter child shadows a wildcard segment.
Trees built by inserting patterns never grow such shadowing children; the
condition ensures the greedy lookup of the literal pattern string reaches
the node `insertTree` wrote to. -/
def cleanPath : TreeNode → List String → Bool
  | _, [] => true
  | .node sc pc _ _, seg :: rest =>
    if isParamSeg seg then
      (findStatic sc seg).isNone && cleanPath ((pc.map Prod.snd).getD emptyNode) rest
    else if seg = "*" then
      (findStatic sc seg).isNone && pc.isNone
    else
      cleanPath ((findStatic sc seg).getD emptyNode) rest

/-- Looking up the literal pattern string right after inserting the
pattern finds the inserted route record (along an unshadowed path). -/
theorem lookupTree_insertTree (segs : List String) :
    ∀ t : TreeNode, cleanPath t segs = true →
      ∀ d : RouteData, ∃ ps, lookupTree (insertTree t segs d) segs = some (d, ps) := by
  induction segs with
  | nil =>
    intro t _ d
    cases t
    exact ⟨[], rfl⟩
  | cons seg rest ih =>
    intro t hc d
    cases t with
    | node sc pc wc r =>
      by_cases hp : isParamSeg seg
      · simp [cleanPath, hp] at hc
        obtain ⟨h1, h2⟩ := hc
        obtain ⟨ps, hps⟩ := ih _ h2 d
        exact ⟨(paramName seg, seg) :: ps, by simp [insertTree, hp, lookupTree, h1, hps]⟩
      · by_cases hw : seg = "*"
        · simp [cleanPath, hp, hw] at hc
          obtain ⟨h1, h2⟩ := hc
          refine ⟨[("*", joinSegs (seg :: rest))], ?_⟩
          cases hgd : wc.getD emptyNode with
          | node sc' pc' wc' r' =>
            simp [insertTree, hp, hw, lookupTree, h1, h2, hgd, withRoute, nodeRoute]
        · simp [cleanPath, hp, hw] at hc
          obtain ⟨ps, hps⟩ := ih _ hc d
          exact ⟨ps, by simp [insertTree, hp, hw, lookupTree, findStatic_setStatic, hps]⟩

/-- `lookupRoute` form of `lookupTree_insertTree`. -/
theorem lookupRoute_insertTree (segs : List String) (t : TreeNode)
    (hc : cleanPath t segs = true) (d : RouteData) :
    lookupRoute (insertTree t segs d) segs = some d := by
  obtain ⟨ps, hps⟩ := lookupTree_insertTree segs t hc d
  simp [lookupRoute, hps]

/-- Replacing the route record at the node a successful lookup reaches
changes the looked-up record and nothing about the matched bindings. -/
theorem lookupTree_setRouteAt (segs : List String) :
    ∀ (t : TreeNode) (r0 : RouteData) (ps0 : List (String × String)),
      lookupTree t segs = some (r0, ps0) →
      ∀ d, lookupTree (setRouteAt t segs d) segs = some (d, ps0) := by
  induction segs with
  | nil =>
    intro t r0 ps0 h d
    cases t with
    | node sc pc wc ro =>
      simp only [lookupTree, Option.map_eq_some'] at h
      obtain ⟨x, _, hx⟩ := h
      cases hx
      rfl
  | cons seg rest ih =>
    intro t r0 ps0 h d
    cases t with
    | node sc pc wc r =>
      cases hfs : findStatic sc seg with
      | some c =>
        simp only [lookupTree, hfs] at h
        simp only [setRouteAt, hfs, lookupTree, findStatic_setStatic]
        exact ih c r0 ps0 h d
      | none =>
        cases hpc : pc with
        | some nc =>
          obtain ⟨name, c⟩ := nc
          simp only [lookupTree, hfs, hpc, Option.map_eq_some'] at h
          obtain ⟨⟨r1, ps1⟩, hin, heq⟩ := h
          obtain ⟨he1, he2⟩ : r1 = r0 ∧ (name, seg) :: ps1 = ps0 := by
            simpa using heq
          subst he1
          subst he2
          simp only [setRouteAt, hfs, hpc, lookupTree]
          simp [ih c r1 ps1 hin d]
        | none =>
          cases hwc : wc with
          | some w =>
            simp only [lookupTree, hfs, hpc, hwc, Option.map_eq_some'] at h
            obtain ⟨r1, hin, heq⟩ := h
            obtain ⟨he1, he2⟩ : r1 = r0 ∧ [("*", joinSegs (seg :: rest))] = ps0 := by
              simpa using heq
            subst he1
            subst he2
            simp only [setRouteAt, hfs, hpc, hwc, lookupTree]
            cases w with
            | node sc' pc' wc' r' => simp [withRoute, nodeRoute]
          | none => simp [lookupTree, hfs, hpc, hwc] at h

/-! ## Claim C10 -/

/-- C10: for every request whose method field is undefined, `handle` raises
the 404 `Route not found` fault even when the request's path matches a
registered route, and no handler is invoked. -/
theorem c10_undefined_method_is_not_found (st : RouterState) (req : Request)
    (h : req.method = none) :
    (handle st req).outcome = .threw404 "Route not found" ∧
      (handle st req).ranHandler = none := by
  unfold handle
  cases hlk : lookupTree st.tree (splitPath (urlPath req.url)) with
  | none => exact ⟨rfl, rfl⟩
  | some rb => rw [h]; exact ⟨rfl, rfl⟩

/-- A router with a `GET /w` route for exercising C10. -/
def c10router : RouterState :=
  (route (mkRouter false) ⟨"/w", "GET", some ⟨1, .ret 0⟩, none⟩).1

/-- C10 witness: the path `/w` is registered, yet a request for `/w` with
an undefined method yields the thrown 404 and runs no handler. -/
theorem c10_undefined_method_is_not_found_witness :
    (⟨none, "/w"⟩ : Request).method = none ∧
    (lookupTree c10router.tree (splitPath (urlPath "/w"))).isSome = true ∧
    (handle c10router ⟨none, "/w"⟩).outcome = .threw404 "Route not found" ∧
    (handle c10router ⟨none, "/w"⟩).ranHandler = none :=
  ⟨rfl, rfl,
    (c10_undefined_method_is_not_found c10router ⟨none, "/w"⟩ rfl).1,
    (c10_undefined_method_is_not_found c10router ⟨none, "/w"⟩ rfl).2⟩

/-! ## Claim C5 -/

/-- C5 counterexample: on an unmatched path, `handle` does not convert the
404 fault into a response — the error is thrown out of `handle`
(`throw createError(404, 'Route not found')`, router.js line 173), so the
claim's assertion that the dispatch-time error is converted into a
response rather than propagated out of the dispatcher is false. -/
theorem c5_counterexample :
    (handle (mkRouter false) ⟨some "GET", "/missing"⟩).outcome =
        .threw404 "Route not found" ∧
    ((handle (mkRouter false) ⟨some "GET", "/missing"⟩).outcome).isThrown = true :=
  ⟨rfl, rfl⟩

/-- C5 amended: for every request whose path matches no registered route,
`handle` raises a 404 fault with message `Route not found`, and this error
propagates out of `handle` to its caller (the `micro` transport layer is
responsible for turning it into a response) rather than being written as a
response by the dispatcher itself. -/
theorem c5_unmatched_path_throws_404 (st : RouterState) (req : Request)
    (h : lookupTree st.tree (splitPath (urlPath req.url)) = none) :
    (handle st req).outcome = .threw404 "Route not found" ∧
      ((handle st req).outcome).isThrown = true := by
  unfold handle
  rw [h]
  exact ⟨rfl, rfl⟩

/-- C5 witness: the amended theorem applied to an empty router and the
path `/nowhere`. -/
theorem c5_unmatched_path_throws_404_witness :
    lookupTree (mkRouter false).tree (splitPath (urlPath "/nowhere")) = none ∧
    (handle (mkRouter false) ⟨some "GET", "/nowhere"⟩).outcome =
        .threw404 "Route not found" :=
  ⟨rfl, (c5_unmatched_path_throws_404 (mkRouter false) ⟨some "GET", "/nowhere"⟩ rfl).1⟩

/-! ## Claim C1 -/

/-- A router with only `GET /a` registered, `debug` off, for C1. -/
def c1router : RouterState :=
  (route (mkRouter false) ⟨"/a", "GET", some ⟨1, .ret 0⟩, none⟩).1

/-- C1 counterexample: with only `GET /a` registered, a `POST /a` request
(matched path, unbound method) produces a 500-class fault — the catch
block catches the TypeError raised by `methodObj.before` on the
`undefined` method binding — while an unmatched path produces the thrown
404; the two observable outcomes differ, so a method miss does not
surface identically to a path miss and is a 500-class, not 404-class,
fault. -/
theorem c1_counterexample :
    (handle c1router ⟨some "POST", "/a"⟩).outcome = .fault500 none ∧
    (handle c1router ⟨some "POST", "/b"⟩).outcome = .threw404 "Route not found" ∧
    (HandleOutcome.fault500 none ≠ HandleOutcome.threw404 "Route not found") :=
  ⟨rfl, rfl, by decide⟩

/-- C1 amended: for every matched path whose method map has no binding for
the request's (defined) method, `handle` produces a 500-class fault whose
body is the debug-gated rendering of the TypeError raised by reading
`.before` off the `undefined` method binding; no handler runs. This
differs from the unmatched-path outcome, which is a thrown 404. -/
theorem c1_method_miss_is_500 (st : RouterState) (req : Request) (r : RouteData)
    (ps : List (String × String)) (m : String)
    (hlk : lookupTree st.tree (splitPath (urlPath req.url)) = some (r, ps))
    (hm : req.method = some m)
    (hfm : findMethod r.methods m = none) :
    (handle st req).outcome = .fault500 (faultBody st.debug undefinedBeforeError) ∧
    (handle st req).ranHandler = none ∧
    ((handle st req).outcome).isThrown = false := by
  simp [handle, hlk, hm, dispatchFound, hfm, HandleOutcome.isThrown]

/-- C1 witness: the amended theorem applied to `c1router` and `POST /a`. -/
theorem c1_method_miss_is_500_witness :
    lookupTree c1router.tree (splitPath (urlPath "/a")) =
        some (⟨"/a", [("GET", ⟨⟨1, .ret 0⟩, none⟩)]⟩, []) ∧
    findMethod [("GET", (⟨⟨1, .ret 0⟩, none⟩ : MethodBinding))] "POST" = none ∧
    (handle c1router ⟨some "POST", "/a"⟩).outcome = .fault500 none :=
  ⟨rfl, rfl,
    (c1_method_miss_is_500 c1router ⟨some "POST", "/a"⟩
      ⟨"/a", [("GET", ⟨⟨1, .ret 0⟩, none⟩)]⟩ [] "POST" rfl rfl rfl).1⟩

/-! ## Claim C9 -/

/-- C9: for every matched route and bound method, `handle` populates the
request context with the extracted path parameters (when some matched) and
the parsed query parameters, and (with no pre-hook bound) invokes the
registered handler. -/
theorem c9_params_populated (st : RouterState) (req : Request) (r : RouteData)
    (ps : List (String × String)) (m : String) (mb : MethodBinding)
    (hlk : lookupTree st.tree (splitPath (urlPath req.url)) = some (r, ps))
    (hm : req.method = some m)
    (hfm : findMethod r.methods m = some mb)
    (hps : ps ≠ []) :
    (handle st req).params = some ps ∧
    (handle st req).searchParams = some (urlQuery req.url) ∧
    (mb.before = none → (handle st req).ranHandler = some mb.handler.id) := by
  have hps' : ps.isEmpty = false := by
    cases ps
    · exact absurd rfl hps
    · rfl
  cases hb : mb.before with
  | none =>
    cases hh : mb.handler.behavior <;>
      simp [handle, hlk, hm, dispatchFound, hfm, hb, runHandler, hh, hps']
  | some hk =>
    cases hkb : hk.behavior <;> cases hh : mb.handler.behavior <;>
      simp [handle, hlk, hm, dispatchFound, hfm, hb, runHandler, hkb, hh, hps']

/-- A router with `GET /users/:id` registered, for the C9 witness. -/
def c9router : RouterState :=
  (route (mkRouter false) ⟨"/users/:id", "GET", some ⟨7, .ret 1⟩, none⟩).1

/-- C9 witness: dispatching `GET /users/42?active=1` against the pattern
`/users/:id` yields `params = [(id, 42)]`, the parsed query parameters,
and invokes the registered `GET` handler (id 7). -/
theorem c9_params_populated_witness :
    (handle c9router ⟨some "GET", "/users/42?active=1"⟩).params = some [("id", "42")] ∧
    (handle c9router ⟨some "GET", "/users/42?active=1"⟩).searchParams =
        some [("active", "1")] ∧
    (handle c9router ⟨some "GET", "/users/42?active=1"⟩).ranHandler = some 7 :=
  have h := c9_params_populated c9router ⟨some "GET", "/users/42?active=1"⟩
    ⟨"/users/:id", [("GET", ⟨⟨7, .ret 1⟩, none⟩)]⟩ [("id", "42")] "GET"
    ⟨⟨7, .ret 1⟩, none⟩ rfl rfl rfl (by decide)
  ⟨h.1, h.2.1, h.2.2 rfl⟩

/-! ## Claim C2 -/

/-- The asynchronously-rejecting pre-hook used by the C2 counterexample. -/
def c2err : JsError := ⟨"Error", "pre-hook rejected", "Error: pre-hook rejected"⟩

/-- A router whose `GET /p` binding has a pre-hook that rejects
asynchronously, for the C2 counterexample. -/
def c2router : RouterState :=
  (route (mkRouter false)
    ⟨"/p", "GET", some ⟨2, .ret 7⟩, some (.callable ⟨9, .rejectAsync c2err⟩)⟩).1

/-- C2 counterexample: the pre-hook call is not awaited (router.js line
161 has no `await`), so a pre-hook whose promise rejects does not prevent
the handler from running and does not produce a 500-class response: the
handler (id 2) runs, its value is returned, and the rejection escapes the
dispatcher unhandled. This falsifies the claim that an asynchronous
rejection of the pre-hook is awaited before the handler runs. -/
theorem c2_counterexample :
    (handle c2router ⟨some "GET", "/p"⟩).ranHandler = some 2 ∧
    (handle c2router ⟨some "GET", "/p"⟩).outcome = .handled 7 ∧
    (handle c2router ⟨some "GET", "/p"⟩).unhandledRejections = [c2err] :=
  ⟨rfl, rfl, rfl⟩

/-- C2 amended: for every matched route and method with a bound pre-hook,
only the pre-hook's *synchronous* completion is awaited: a pre-hook that
throws synchronously prevents the handler from running and produces a
500-class response identically to a handler failure, while a pre-hook
that rejects asynchronously does not prevent the handler from running —
the handler is invoked and the rejection escapes `handle` unhandled. -/
theorem c2_prehook_sync_only (st : RouterState) (req : Request) (r : RouteData)
    (ps : List (String × String)) (m : String) (mb : MethodBinding) (hk : Hook)
    (e : JsError)
    (hlk : lookupTree st.tree (splitPath (urlPath req.url)) = some (r, ps))
    (hm : req.method = some m)
    (hfm : findMethod r.methods m = some mb)
    (hb : mb.before = some hk) :
    (hk.behavior = .throwSync e →
      (handle st req).outcome = .fault500 (faultBody st.debug e) ∧
      (handle st req).ranHandler = none) ∧
    (hk.behavior = .rejectAsync e →
      (handle st req).ranHandler = some mb.handler.id ∧
      (handle st req).unhandledRejections = [e]) := by
  constructor
  · intro hkb
    simp [handle, hlk, hm, dispatchFound, hfm, hb, hkb]
  · intro hkb
    cases hh : mb.handler.behavior <;>
      simp [handle, hlk, hm, dispatchFound, hfm, hb, hkb, runHandler, hh]

/-- A router whose `GET /p` binding has a synchronously-throwing pre-hook,
for the C2 witness. -/
def c2wrouter : RouterState :=
  (route (mkRouter false)
    ⟨"/p", "GET", some ⟨2, .ret 7⟩, some (.callable ⟨9, .throwSync c2err⟩)⟩).1

/-- C2 witness: the amended theorem applied to a synchronously-throwing
pre-hook — the handler does not run and a 500 with empty body results. -/
theorem c2_prehook_sync_only_witness :
    (handle c2wrouter ⟨some "GET", "/p"⟩).outcome = .fault500 none ∧
    (handle c2wrouter ⟨some "GET", "/p"⟩).ranHandler = none :=
  (c2_prehook_sync_only c2wrouter ⟨some "GET", "/p"⟩
    ⟨"/p", [("GET", ⟨⟨2, .ret 7⟩, some ⟨9, .throwSync c2err⟩⟩)]⟩ [] "GET"
    ⟨⟨2, .ret 7⟩, some ⟨9, .throwSync c2err⟩⟩ ⟨9, .throwSync c2err⟩ c2err
    rfl rfl rfl rfl).1 rfl

/-! ## Claim C4 -/

/-- The error used by the C4 counterexample. -/
def c4err : JsError := ⟨"RangeError", "async pre-hook failure", "RangeError: trace"⟩

/-- A debug-enabled router whose `GET /q` binding has an asynchronously
rejecting pre-hook, for the C4 counterexample. -/
def c4router : RouterState :=
  (route (mkRouter true)
    ⟨"/q", "GET", some ⟨3, .ret 5⟩, some (.callable ⟨8, .rejectAsync c4err⟩)⟩).1

/-- C4 counterexample: a failure raised during pre-hook execution as an
asynchronous rejection is *not* caught inside `handle` and not converted
into a 500-class response — the handler's value is returned and the
rejection escapes — falsifying the claim that any failure raised during
pre-hook or handler execution is caught and converted into a 500. -/
theorem c4_counterexample :
    (handle c4router ⟨some "GET", "/q"⟩).outcome = .handled 5 ∧
    (handle c4router ⟨some "GET", "/q"⟩).outcome ≠ .fault500 (faultBody true c4err) ∧
    (handle c4router ⟨some "GET", "/q"⟩).unhandledRejections = [c4err] :=
  ⟨rfl, by decide, rfl⟩

/-- C4 amended: every *synchronous* pre-hook failure and every handler
failure (synchronous throw or awaited asynchronous rejection) is caught
inside `handle` and converted into a 500-class response whose body is
gated by `debug`: when `debug` is true the body is the non-empty string
containing the failure's name, message and stack trace; when `debug` is
false the body is the JS `null` (an empty fault body). An *asynchronous*
pre-hook rejection is not caught (see the counterexample). -/
theorem c4_faults_500_debug_gated (st : RouterState) (req : Request) (r : RouteData)
    (ps : List (String × String)) (m : String) (mb : MethodBinding) (e : JsError)
    (hlk : lookupTree st.tree (splitPath (urlPath req.url)) = some (r, ps))
    (hm : req.method = some m)
    (hfm : findMethod r.methods m = some mb) :
    (mb.before = none →
      mb.handler.behavior = .throwSync e ∨ mb.handler.behavior = .rejectAsync e →
      (handle st req).outcome = .fault500 (faultBody st.debug e)) ∧
    (∀ hk : Hook, mb.before = some hk → hk.behavior = .ret () →
      mb.handler.behavior = .throwSync e ∨ mb.handler.behavior = .rejectAsync e →
      (handle st req).outcome = .fault500 (faultBody st.debug e)) ∧
    (∀ hk : Hook, mb.before = some hk → hk.behavior = .throwSync e →
      (handle st req).outcome = .fault500 (faultBody st.debug e)) ∧
    (st.debug = true →
      faultBody st.debug e = some (e.name ++ ": " ++ e.message ++ "\n" ++ e.stack) ∧
      (e.name ++ ": " ++ e.message ++ "\n" ++ e.stack) ≠ "") ∧
    (st.debug = false → faultBody st.debug e = none) := by
  refine ⟨?_, ?_, ?_, ?_, ?_⟩
  · intro hb hfail
    rcases hfail with hh | hh <;>
      simp [handle, hlk, hm, dispatchFound, hfm, hb, runHandler, hh]
  · intro hk hb hkb hfail
    rcases hfail with hh | hh <;>
      simp [handle, hlk, hm, dispatchFound, hfm, hb, hkb, runHandler, hh]
  · intro hk hb hkb
    simp [handle, hlk, hm, dispatchFound, hfm, hb, hkb]
  · intro hdbg
    refine ⟨by simp [faultBody, hdbg], ?_⟩
    intro hcontra
    have hlen := congrArg String.length hcontra
    have h2 : (": " : String).length = 2 := rfl
    have h1 : ("\n" : String).length = 1 := rfl
    simp [String.length_append, h2, h1] at hlen
  · intro hdbg
    simp [faultBody, hdbg]

/-- A debug-enabled router whose `GET /boom` handler throws, for the C4
witness. -/
def c4wrouter : RouterState :=
  (route (mkRouter true)
    ⟨"/boom", "GET", some ⟨4, .throwSync ⟨"Error", "boom", "trace"⟩⟩, none⟩).1

/-- C4 witness: the amended theorem applied to a throwing handler on a
debug-enabled router — the outcome is a 500 whose body spells out the
error's name, message and stack. -/
theorem c4_faults_500_debug_gated_witness :
    (handle c4wrouter ⟨some "GET", "/boom"⟩).outcome =
      .fault500 (some "Error: boom\ntrace") :=
  (c4_faults_500_debug_gated c4wrouter ⟨some "GET", "/boom"⟩
    ⟨"/boom", [("GET", ⟨⟨4, .throwSync ⟨"Error", "boom", "trace"⟩⟩, none⟩)]⟩ [] "GET"
    ⟨⟨4, .throwSync ⟨"Error", "boom", "trace"⟩⟩, none⟩ ⟨"Error", "boom", "trace"⟩
    rfl rfl rfl).1 rfl (Or.inl rfl)

/-! ## Claim C6 -/

/-- The registration attempt with a non-callable pre-hook used by the C6
counterexample. -/
def c6reg : RouterState × Option RegError :=
  route (mkRouter false) ⟨"/a", "GET", some ⟨5, .ret 1⟩, some .notCallable⟩

/-- C6 counterexample: registering with a truthy non-callable pre-hook
does raise the InvalidHook-class error, but the routing table is *not*
left unchanged: `route.methods.set(...)` (router.js line 61) runs before
the `assert(typeof options.before === 'function')` (line 64), so the
handler binding for `(pattern, method)` is already installed when the
error is raised — falsifying the no-partial-table part of the claim. -/
theorem c6_counterexample :
    c6reg.2 = some .invalidHook ∧
    lookupRoute c6reg.1.tree (splitPath "/a") =
      some ⟨"/a", [("GET", ⟨⟨5, .ret 1⟩, none⟩)]⟩ :=
  ⟨rfl, rfl⟩

/-- C6 amended: for every registration call with a truthy non-callable
pre-hook (and otherwise valid path, method and handler), registration
fails with the InvalidHook-class assertion error, but the routing table
has already been mutated: the resulting table is exactly the one the same
registration without the pre-hook would have produced — the handler
binding (with no pre-hook) is installed despite the error. -/
theorem c6_invalid_hook_mutates_table (st : RouterState) (o : RouteOptions) (h : Handler)
    (hp : o.path ≠ "") (hm : o.method ≠ "") (hh : o.handler = some h)
    (hb : o.before = some .notCallable) :
    (route st o).2 = some .invalidHook ∧
    (route st o).1 = (route st { o with before := none }).1 := by
  simp only [route, hh, hb, if_neg hp, if_neg hm]
  cases hlk : lookupRoute st.tree (splitPath o.path) <;> simp [hlk]

/-- C6 witness: the amended theorem applied to the concrete registration
of `GET /a` with a non-callable pre-hook on an empty router. -/
theorem c6_invalid_hook_mutates_table_witness :
    c6reg.2 = some RegError.invalidHook ∧
    c6reg.1 = (route (mkRouter false) ⟨"/a", "GET", some ⟨5, .ret 1⟩, none⟩).1 :=
  c6_invalid_hook_mutates_table (mkRouter false)
    ⟨"/a", "GET", some ⟨5, .ret 1⟩, some .notCallable⟩ ⟨5, .ret 1⟩
    (by decide) (by decide) rfl rfl

/-! ## Claim C8 -/

/-- C8: every registration call with a missing/empty pattern, a
missing/empty method, or a missing handler fails synchronously with an
InvalidRoute-class assertion error, and the routing table is returned
unchanged. -/
theorem c8_invalid_registration_fails_fast (st : RouterState) (o : RouteOptions)
    (h : o.path = "" ∨ o.method = "" ∨ o.handler = none) :
    ∃ msg, route st o = (st, some (.invalidRoute msg)) := by
  unfold route
  by_cases hp : o.path = ""
  · exact ⟨_, by rw [if_pos hp]⟩
  · rw [if_neg hp]
    by_cases hm : o.method = ""
    · exact ⟨_, by rw [if_pos hm]⟩
    · rw [if_neg hm]
      have hh : o.handler = none := by
        rcases h with h | h | h
        · exact absurd h hp
        · exact absurd h hm
        · exact h
      rw [hh]
      exact ⟨_, rfl⟩

/-- C8 witness: registering with an empty path fails with the
InvalidRoute-class error and leaves the router untouched. -/
theorem c8_invalid_registration_fails_fast_witness :
    ∃ msg, route (mkRouter false) ⟨"", "GET", some ⟨1, .ret 0⟩, none⟩ =
      (mkRouter false, some (.invalidRoute msg)) :=
  c8_invalid_registration_fails_fast (mkRouter false)
    ⟨"", "GET", some ⟨1, .ret 0⟩, none⟩ (Or.inl rfl)

/-! ## Claim C3 -/

/-- The router of the C3 scenario: `/a/:id` registered first (handler 1),
then `/a/five` (handler 2), both for `GET`. -/
def c3router : RouterState :=
  (route ((route (mkRouter false) ⟨"/a/:id", "GET", some ⟨1, .ret 11⟩, none⟩).1)
    ⟨"/a/five", "GET", some ⟨2, .ret 22⟩, none⟩).1

/-- C3 counterexample: after registering `/a/:id` (handler 1) and then
`/a/five` (handler 2), a lookup of `/a/5` dispatches to handler 2, not to
the parameter route's handler 1 as the claim requires. The reason: at
registration time `route()` locates an existing route via
`radixRouter.lookup(options.path)` (router.js line 46), and the lookup of
`/a/five` parameter-matches `/a/:id`, so the second registration reuses
that route and overwrites its `GET` binding instead of creating a static
sibling — both paths now resolve to the same single route. -/
theorem c3_counterexample :
    (handle c3router ⟨some "GET", "/a/5"⟩).ranHandler = some 2 ∧
    (handle c3router ⟨some "GET", "/a/5"⟩).ranHandler ≠ some 1 ∧
    lookupRoute c3router.tree (splitPath "/a/five") =
      lookupRoute c3router.tree (splitPath "/a/5") :=
  ⟨rfl, by decide, rfl⟩

/-- C3 amended: when `/a/:id` is registered first and `/a/five` is
registered afterwards, the literal path `/a/five` does dispatch to the
later handler, but not through a static sibling route: the second
registration reuses the `/a/:id` route (found by the parameter-matching
lookup of the pattern string) and overwrites its `GET` binding, so `/a/5`
*also* dispatches to the later handler, with params binding `id` to `5`;
both paths resolve to one and the same route. -/
theorem c3_later_registration_overwrites (h1 h2 : Handler) :
    (handle ((route ((route (mkRouter false) ⟨"/a/:id", "GET", some h1, none⟩).1)
        ⟨"/a/five", "GET", some h2, none⟩).1) ⟨some "GET", "/a/five"⟩).ranHandler =
      some h2.id ∧
    (handle ((route ((route (mkRouter false) ⟨"/a/:id", "GET", some h1, none⟩).1)
        ⟨"/a/five", "GET", some h2, none⟩).1) ⟨some "GET", "/a/5"⟩).ranHandler =
      some h2.id ∧
    (handle ((route ((route (mkRouter false) ⟨"/a/:id", "GET", some h1, none⟩).1)
        ⟨"/a/five", "GET", some h2, none⟩).1) ⟨some "GET", "/a/5"⟩).params =
      some [("id", "5")] ∧
    lookupRoute ((route ((route (mkRouter false) ⟨"/a/:id", "GET", some h1, none⟩).1)
        ⟨"/a/five", "GET", some h2, none⟩).1).tree (splitPath "/a/five") =
      lookupRoute ((route ((route (mkRouter false) ⟨"/a/:id", "GET", some h1, none⟩).1)
        ⟨"/a/five", "GET", some h2, none⟩).1).tree (splitPath "/a/5") := by
  obtain ⟨i2, b2⟩ := h2
  cases b2 <;> exact ⟨rfl, rfl, rfl, rfl⟩

/-! ## Claim C7 -/

/-- C7: registering a pattern a second time (same or different method)
reuses the existing tree node and route record rather than creating a
duplicate: the second registration takes the reuse branch of `route()`,
so its tree is the first registration's tree with only the route record
at the pattern's node replaced (no structural insertion); a subsequent
lookup of the pattern resolves to the single route record carrying all
registered methods; and re-registering the same (pattern, method) pair
overwrites the previous binding (last-write-wins). The cleanliness
hypothesis states the pattern's insertion path is not shadowed in the
starting tree, which holds in particular for the empty router. -/
theorem c7_same_pattern_reuses_route (st0 : RouterState) (p m1 m2 : String)
    (h1 h2 : Handler)
    (hp : p ≠ "") (hm1 : m1 ≠ "") (hm2 : m2 ≠ "")
    (hnew : lookupRoute st0.tree (splitPath p) = none)
    (hclean : cleanPath st0.tree (splitPath p) = true) :
    (route ((route st0 ⟨p, m1, some h1, none⟩).1) ⟨p, m2, some h2, none⟩).1.tree =
      setRouteAt ((route st0 ⟨p, m1, some h1, none⟩).1).tree (splitPath p)
        ⟨p, setMethod [(upperString m1, ⟨h1, none⟩)] (upperString m2) ⟨h2, none⟩⟩ ∧
    lookupRoute
        ((route ((route st0 ⟨p, m1, some h1, none⟩).1) ⟨p, m2, some h2, none⟩).1).tree
        (splitPath p) =
      some ⟨p, setMethod [(upperString m1, ⟨h1, none⟩)] (upperString m2) ⟨h2, none⟩⟩ ∧
    findMethod (setMethod [(upperString m1, ⟨h1, none⟩)] (upperString m2) ⟨h2, none⟩)
        (upperString m2) = some ⟨h2, none⟩ ∧
    (upperString m1 ≠ upperString m2 →
      findMethod (setMethod [(upperString m1, ⟨h1, none⟩)] (upperString m2) ⟨h2, none⟩)
        (upperString m1) = some ⟨h1, none⟩) ∧
    (upperString m1 = upperString m2 →
      setMethod [(upperString m1, ⟨h1, none⟩)] (upperString m2) ⟨h2, none⟩ =
        [(upperString m2, ⟨h2, none⟩)]) := by
  set st1 : RouterState := (route st0 ⟨p, m1, some h1, none⟩).1 with hst1def
  have hst1 : st1.tree =
      insertTree st0.tree (splitPath p) ⟨p, [(upperString m1, ⟨h1, none⟩)]⟩ := by
    rw [hst1def]
    simp [route, hp, hm1, hnew, setMethod]
  obtain ⟨ps1, hps1⟩ := lookupTree_insertTree (splitPath p) st0.tree hclean
    ⟨p, [(upperString m1, ⟨h1, none⟩)]⟩
  have hlk1 : lookupRoute st1.tree (splitPath p) =
      some ⟨p, [(upperString m1, ⟨h1, none⟩)]⟩ := by
    rw [lookupRoute, hst1, hps1]
    rfl
  have hst2 : (route st1 ⟨p, m2, some h2, none⟩).1.tree =
      setRouteAt st1.tree (splitPath p)
        ⟨p, setMethod [(upperString m1, ⟨h1, none⟩)] (upperString m2) ⟨h2, none⟩⟩ := by
    simp [route, hp, hm2, hlk1]
  have hlk2 : lookupTree st1.tree (splitPath p) =
      some (⟨p, [(upperString m1, ⟨h1, none⟩)]⟩, ps1) := by
    rw [hst1]; exact hps1
  have hfinal := lookupTree_setRouteAt (splitPath p) _ _ _ hlk2
    ⟨p, setMethod [(upperString m1, ⟨h1, none⟩)] (upperString m2) ⟨h2, none⟩⟩
  refine ⟨hst2, ?_, findMethod_setMethod_self _ _ _, ?_, ?_⟩
  · rw [lookupRoute, hst2, hfinal]
    rfl
  · intro hne
    rw [findMethod_setMethod_ne _ _ _ _ hne]
    simp [findMethod]
  · intro heq
    rw [heq]
    simp [setMethod]

/-- The router after registering `get /u/:id` (handler 1) on an empty
router, for the C7 witness. -/
def c7st1 : RouterState :=
  (route (mkRouter false) ⟨"/u/:id", "get", some ⟨1, .ret 1⟩, none⟩).1

/-- The same router after additionally registering `POST /u/:id`
(handler 2). -/
def c7st2 : RouterState :=
  (route c7st1 ⟨"/u/:id", "POST", some ⟨2, .ret 2⟩, none⟩).1

/-- C7 witness: the theorem applied to `/u/:id` registered with method
`get` (uppercased to `GET`) and then with `POST` on an empty router: one
route record carries both bindings and the second registration only
replaced the route record at the existing node. -/
theorem c7_same_pattern_reuses_route_witness :
    c7st2.tree = setRouteAt c7st1.tree (splitPath "/u/:id")
        ⟨"/u/:id", [("GET", ⟨⟨1, .ret 1⟩, none⟩), ("POST", ⟨⟨2, .ret 2⟩, none⟩)]⟩ ∧
    lookupRoute c7st2.tree (splitPath "/u/:id") =
      some ⟨"/u/:id", [("GET", ⟨⟨1, .ret 1⟩, none⟩), ("POST", ⟨⟨2, .ret 2⟩, none⟩)]⟩ ∧
    findMethod [("GET", ⟨⟨1, .ret 1⟩, none⟩), ("POST", ⟨⟨2, .ret 2⟩, none⟩)] "POST" =
      some ⟨⟨2, .ret 2⟩, none⟩ ∧
    (("GET" : String) ≠ "POST" →
      findMethod [("GET", ⟨⟨1, .ret 1⟩, none⟩), ("POST", ⟨⟨2, .ret 2⟩, none⟩)] "GET" =
        some ⟨⟨1, .ret 1⟩, none⟩) ∧
    (("GET" : String) = "POST" →
      [("GET", (⟨⟨1, .ret 1⟩, none⟩ : MethodBinding)), ("POST", ⟨⟨2, .ret 2⟩, none⟩)] =
        [("POST", ⟨⟨2, .ret 2⟩, none⟩)]) :=
  c7_same_pattern_reuses_route (mkRouter false) "/u/:id" "get" "POST"
    ⟨1, .ret 1⟩ ⟨2, .ret 2⟩ (by decide) (by decide) (by decide) rfl rfl

end MicroHttpRouter
